import Mathlib

/-!
Shallow embedding of the scafi_backend outbound ERP pipeline
(src/core.py and src/service.py) and proofs about the frozen claims.

Python JSON/dict values are modelled by `PyVal`; a Python dict is an
association list (JSON parsing deduplicates keys, so lists are assumed
key-unique where they stand for parsed bodies).  The dry-run flags keep
their source defaults (`DRY_RUN_DB = false`, `DRY_RUN_JDE = false`,
`DRY_RUN_SMTP = true`); database writes and mail sends are modelled as
the calls the workflow issues (an `Effect` trace).
-/

/-- A Python value as it appears after `json.loads`: `None`, `str`,
`int`, `bool`, `dict` or `list`.  (Floats do not occur on the paths the
claims are about.) -/
inductive PyVal where
  | none
  | str (s : String)
  | int (n : Int)
  | bool (b : Bool)
  | obj (kvs : List (String × PyVal))
  | arr (xs : List PyVal)
deriving Repr

mutual
/-- Boolean equality on `PyVal` (the derive handler does not support the
nested inductive, so it is spelled out). -/
def pyBeq : PyVal → PyVal → Bool
  | .none, .none => true
  | .str a, .str b => a == b
  | .int a, .int b => a == b
  | .bool a, .bool b => a == b
  | .obj a, .obj b => pyBeqPairs a b
  | .arr a, .arr b => pyBeqList a b
  | _, _ => false

def pyBeqPairs : List (String × PyVal) → List (String × PyVal) → Bool
  | [], [] => true
  | (k, v) :: a, (l, w) :: b => k == l && pyBeq v w && pyBeqPairs a b
  | _, _ => false

def pyBeqList : List PyVal → List PyVal → Bool
  | [], [] => true
  | v :: a, w :: b => pyBeq v w && pyBeqList a b
  | _, _ => false
end

mutual
theorem pyBeq_iff_eq : ∀ a b : PyVal, pyBeq a b = true ↔ a = b
  | .none, b => by cases b <;> simp [pyBeq]
  | .str a, b => by cases b <;> simp [pyBeq]
  | .int a, b => by cases b <;> simp [pyBeq]
  | .bool a, b => by cases b <;> simp [pyBeq]
  | .obj a, b => by
      cases b <;> simp [pyBeq]
      exact pyBeqPairs_iff_eq a _
  | .arr a, b => by
      cases b <;> simp [pyBeq]
      exact pyBeqList_iff_eq a _

theorem pyBeqPairs_iff_eq : ∀ a b : List (String × PyVal), pyBeqPairs a b = true ↔ a = b
  | [], b => by cases b <;> simp [pyBeqPairs]
  | (k, v) :: a, [] => by simp [pyBeqPairs]
  | (k, v) :: a, (l, w) :: b => by
      simp [pyBeqPairs, Bool.and_assoc, Bool.and_eq_true,
        pyBeq_iff_eq v w, pyBeqPairs_iff_eq a b]
      tauto

theorem pyBeqList_iff_eq : ∀ a b : List PyVal, pyBeqList a b = true ↔ a = b
  | [], b => by cases b <;> simp [pyBeqList]
  | v :: a, [] => by simp [pyBeqList]
  | v :: a, w :: b => by
      simp [pyBeqList, Bool.and_eq_true, pyBeq_iff_eq v w, pyBeqList_iff_eq a b]
end

instance : DecidableEq PyVal := fun a b =>
  decidable_of_iff (pyBeq a b = true) (pyBeq_iff_eq a b)

/-- Python dict membership, `k in d`. -/
def dictMem (kvs : List (String × PyVal)) (k : String) : Bool :=
  kvs.any (fun p => p.1 == k)

/-- Python dict lookup with default, `d.get(k, default)`. -/
def dictGetD (kvs : List (String × PyVal)) (k : String) (d : PyVal) : PyVal :=
  match kvs.find? (fun p => p.1 == k) with
  | some p => p.2
  | Option.none => d

/-- Python dict lookup, `d.get(k)` (`None` when the key is absent). -/
def dictGet (kvs : List (String × PyVal)) (k : String) : PyVal :=
  dictGetD kvs k PyVal.none

/-- Python truthiness of a value (used by `x or y`). -/
def truthy : PyVal → Bool
  | .none => false
  | .str s => !(s == "")
  | .int n => !(n == 0)
  | .bool b => b
  | .obj kvs => !kvs.isEmpty
  | .arr xs => !xs.isEmpty

/-- Python `x or y`. -/
def pyOr (x y : PyVal) : PyVal := if truthy x then x else y

mutual
/-- Python `repr` of a value (string escaping inside `repr` is elided;
no claim depends on the rendered text of a composite value). -/
def pyRepr : PyVal → String
  | .none => "None"
  | .str s => "\x27" ++ s ++ "\x27"
  | .int n => toString n
  | .bool b => if b then "True" else "False"
  | .obj kvs => "\x7b" ++ pyReprPairs kvs ++ "\x7d"
  | .arr xs => "[" ++ pyReprList xs ++ "]"

def pyReprPairs : List (String × PyVal) → String
  | [] => ""
  | [(k, v)] => "\x27" ++ k ++ "\x27: " ++ pyRepr v
  | (k, v) :: rest => "\x27" ++ k ++ "\x27: " ++ pyRepr v ++ ", " ++ pyReprPairs rest

def pyReprList : List PyVal → String
  | [] => ""
  | [v] => pyRepr v
  | v :: rest => pyRepr v ++ ", " ++ pyReprList rest
end

/-- Python `str()` of a value (`str` and `repr` agree except on strings). -/
def pyStr : PyVal → String
  | .str s => s
  | v => pyRepr v

/-- Minimal JSON string escaping used by `jsonDumps`. -/
def jsonEscape (s : String) : String :=
  (s.replace "\\" "\\\\").replace "\"" "\\\""

mutual
/-- Serialization `json.dumps` with its default separators. -/
def jsonDumps : PyVal → String
  | .none => "null"
  | .str s => "\"" ++ jsonEscape s ++ "\""
  | .int n => toString n
  | .bool b => if b then "true" else "false"
  | .obj kvs => "\x7b" ++ jsonDumpsPairs kvs ++ "\x7d"
  | .arr xs => "[" ++ jsonDumpsList xs ++ "]"

def jsonDumpsPairs : List (String × PyVal) → String
  | [] => ""
  | [(k, v)] => "\"" ++ jsonEscape k ++ "\": " ++ jsonDumps v
  | (k, v) :: rest => "\"" ++ jsonEscape k ++ "\": " ++ jsonDumps v ++ ", " ++ jsonDumpsPairs rest

def jsonDumpsList : List PyVal → String
  | [] => ""
  | [v] => jsonDumps v
  | v :: rest => jsonDumps v ++ ", " ++ jsonDumpsList rest
end

/-- The inner `first(*keys)` helper of `_extract_jde_fields`
(src/service.py lines 87-91): return the value of the first key present
in the response, else `None`. -/
def firstKey (jde_resp : List (String × PyVal)) : List String → PyVal
  | [] => PyVal.none
  | k :: ks => if dictMem jde_resp k then dictGet jde_resp k else firstKey jde_resp ks

/-- Normalizer `_extract_jde_fields` (src/service.py lines 85-102): normalize likely
field names from JDE responses into a consistent mapping (a dict). -/
def extract_jde_fields (jde_resp : List (String × PyVal)) : List (String × PyVal) :=
  [("message", firstKey jde_resp ["message", "jdeSimpleMessage", "userDefinedErrorText"]),
   ("jde_status", firstKey jde_resp ["jde__status", "jdeStatus", "jde_status"]),
   ("jde_start_timestamp", firstKey jde_resp ["jde__startTimestamp", "jdeStartTimestamp"]),
   ("jde_end_timestamp", firstKey jde_resp ["jde__endTimestamp", "jdeEndTimestamp"]),
   ("status", firstKey jde_resp ["status"]),
   ("batchno", firstKey jde_resp ["BatchNo", "batchNo", "batchno"]),
   ("jde_server_execution_seconds",
     firstKey jde_resp ["jde__serverExecutionSeconds", "jdeServerExecutionSeconds"]),
   ("jde_log_id", firstKey jde_resp ["jdeLogId", "jde_log_id", "exceptionId"])]

/-! ## The resilient HTTP client (`http_json`, src/core.py lines 153-187)

`HTTP_BACKOFF_BASE` keeps its source default (`0.3`, from env default
`"0.3"`); delays are modelled over `ℚ`.  The behaviour of one connection
attempt is an oracle `Nat → AttemptOut` (attempt numbers start at 1, as
in the source); `json.loads`-after-decode and the `errors="replace"`
decoding of the fallback are stdlib oracles `P` and `D`; the per-attempt
`random.uniform(0, 0.2)` jitter is an oracle `J`. -/

/-- Source default of env `HTTP_BACKOFF_BASE` (src/core.py line 84). -/
def HTTP_BACKOFF_BASE : ℚ := 3 / 10

/-- Outcome of one connection attempt: a network-level failure
(`socket.timeout` / `ConnectionError` / `OSError`, carrying `str(e)`) or
a reply with an HTTP status and raw body bytes. -/
inductive AttemptOut where
  | netFail (e : String)
  | reply (status : Nat) (data : List Nat)

/-- Body handling of src/core.py lines 175-176:
`json.loads(data.decode("utf-8") if data else "{}")`, with a fallback
object `{"raw": (data[:200] if data else b"").decode("utf-8",
errors="replace")}` when decoding or parsing fails.  `P data` is
`json.loads` applied to the decoded bytes (`Option.none` when decoding or
parsing raises); `D` is the replace-mode decoding used by the fallback. -/
def parse_body (P : List Nat → Option PyVal) (D : List Nat → String)
    (data : List Nat) : PyVal :=
  if data.isEmpty then PyVal.obj []
  else
    match P data with
    | some v => v
    | Option.none => PyVal.obj [("raw", PyVal.str (D (data.take 200)))]

/-- What one call to `http_json` did: its outcome (`Except.error` is the
re-raised last network error), how many connection attempts were issued,
and the backoff delays slept between attempts, in order. -/
structure HttpRun where
  result : Except String (Nat × PyVal)
  attemptsIssued : Nat
  sleeps : List ℚ
deriving Repr

/-- The retry loop of `http_json` (src/core.py lines 166-187).  The
source guard `if attempt > (1 + retries): raise` is carried as the
`remaining` counter with the invariant `remaining = (2 + retries) -
attempt`, so `remaining = 0` exactly when `attempt > 1 + retries`; the
loop enters with `attempt = 1`, `remaining = 1 + retries`. -/
def http_json_go (oracle : Nat → AttemptOut) (P : List Nat → Option PyVal)
    (D : List Nat → String) (J : Nat → ℚ) :
    (attempt : Nat) → (remaining : Nat) → (sleepAcc : List ℚ) → HttpRun
  | attempt, remaining, sleepAcc =>
    match oracle attempt with
    | .reply status data =>
        ⟨.ok (status, parse_body P D data), attempt, sleepAcc.reverse⟩
    | .netFail e =>
        match remaining with
        | 0 => ⟨.error e, attempt, sleepAcc.reverse⟩
        | r + 1 =>
            let sleep_s := HTTP_BACKOFF_BASE * 2 ^ (attempt - 1) + J attempt
            http_json_go oracle P D J (attempt + 1) r (sleep_s :: sleepAcc)

/-- Client entry `http_json(method, base_url, path, payload, headers, timeout,
retries)` restricted to what the claims observe: the loop over attempts
(src/core.py lines 166-187) with `DRY_RUN_JDE` at its source default
(false). -/
def http_json (retries : Nat) (oracle : Nat → AttemptOut)
    (P : List Nat → Option PyVal) (D : List Nat → String) (J : Nat → ℚ) : HttpRun :=
  http_json_go oracle P D J 1 (1 + retries) []

/-! ## DTOs (src/dtos.py) and the integration-log row -/

/-- DTO `AnagrafichePayload` (src/dtos.py lines 8-31). -/
structure AnagrafichePayload where
  codice : String
  tipo : String
  tipoSoggetto : String
  anagrafica : String
  partitaIva : Option String := Option.none
  codiceFiscale : Option String := Option.none
  indirizzo : Option String := Option.none
  numeroCivico : Option String := Option.none
  cap : Option String := Option.none
  citta : Option String := Option.none
  provincia : Option String := Option.none
  nazione : Option String := Option.none
  codiceIva : Option String := Option.none
  iban : Option String := Option.none
  codiceBanca : Option String := Option.none
  payeeNumber : Option String := Option.none
  datiAudit : Option String := Option.none
  dichiarazioneIntento : Option String := Option.none
  codicePA : Option String := Option.none
  paymentTerms : Option String := Option.none
  paymentMethod : Option String := Option.none
  codiceprincipale : Option String := Option.none
  zucchettiNumber : String
deriving Repr

/-- DTO `InvoiceResponse` (src/dtos.py lines 33-50). -/
structure InvoiceResponse where
  CustomId : Int
  CustomExported : Option Bool := Option.none
  DocumentType : String
  DocumentNumber : String
  DocumentCompany : String
  Customer : String
  Company : String
  InvoiceDate : String
  RegistrationDate : String
  CurrencyCode : String
  ExchangeRate : Int
  SubledgerCod : Option String := Option.none
  SubledgerType : Option String := Option.none
  CustomerLedger : List PyVal := []
  InvoiceDetails : List PyVal := []
  PymtTerms : String
  Attachment : Option String := Option.none
deriving Repr

/-- DTO `ServiceResponse` (src/dtos.py lines 52-54). -/
structure ServiceResponse where
  success : String
  message : Option String := Option.none
deriving Repr, DecidableEq

/-- The row `_db_insert_integration_log` writes (src/service.py lines
105-152); `jde_log_id` already carries the source's `or "0"` sentinel of
line 145.  Parameters typed `Any` in the source stay `PyVal`. -/
structure IntegrationLogRow where
  object_id : PyVal
  object_type : String
  message : PyVal
  jde_status : PyVal
  jde_start_timestamp : PyVal
  jde_end_timestamp : PyVal
  status : PyVal
  batchno : PyVal
  jde_server_execution_seconds : PyVal
  jde_log_id : PyVal
  integration_type : String
  code : PyVal
  company : String
deriving Repr, DecidableEq

/-- One observable side effect of a workflow run, in program order:
an `integration_log` insert (`_db_insert_integration_log`), an HTTP call
made from inside the workflow body beyond the primary submission (the
diagnostics fetch, with its path and payload), an `integration_log`
message update keyed by `str(jde_log_id)`
(`_db_update_integration_log_message_by_jde_log_id`), or a `send_mail`
attempt (subject recorded). -/
inductive Effect where
  | insertLog (row : IntegrationLogRow)
  | httpCall (path : String) (payload : List (String × PyVal))
  | updateLog (key : String) (message : PyVal)
  | sendMail (subject : String)
deriving Repr, DecidableEq

def Effect.isInsertLog : Effect → Bool
  | .insertLog _ => true
  | _ => false

def Effect.isHttpCall : Effect → Bool
  | .httpCall _ _ => true
  | _ => false

def Effect.isUpdateLog : Effect → Bool
  | .updateLog _ _ => true
  | _ => false

def Effect.isSendMail : Effect → Bool
  | .sendMail _ => true
  | _ => false

/-- What one workflow call did: its effect trace and the returned
`ServiceResponse`. -/
structure WorkflowRun where
  effects : List Effect
  response : ServiceResponse
deriving Repr

/-! ## The two document submission workflows (src/service.py)

The primary `http_json` call and the diagnostics call are abstracted by
their outcomes (`Except.error e` = the call raised, carrying `str(e)`;
`Except.ok (status, body)` = an HTTP reply).  The credential helpers
(`_attach_credentials`, `_basic_auth_header_for_company`) and the
payload build only shape the outbound request, which the claims do not
observe, so they are folded into the call outcome.  `_db_upsert_anagrafica`
writes a different table than `integration_log` and is not an
integration-log effect. -/

/-- Python `.upper()` (over the character list; the status values the
code compares are ASCII, where `Char.toUpper` matches Python). -/
def strUpper (s : String) : String := String.mk (s.data.map Char.toUpper)

/-- Python type name, as it appears in an `AttributeError`. -/
def pyTypeName : PyVal → String
  | .none => "NoneType"
  | .str _ => "str"
  | .int _ => "int"
  | .bool _ => "bool"
  | .obj _ => "dict"
  | .arr _ => "list"

/-- Text `str(e)` for the `AttributeError` raised by `v.get(...)` when `v` is
not a dict (src/service.py line 256 / line 262 can hit this). -/
def attrGetError (v : PyVal) : String :=
  "\x27" ++ pyTypeName v ++ "\x27 object has no attribute \x27get\x27"

/-- Coercion `jde_resp if isinstance(jde_resp, dict) else` empty-dict
(src/service.py lines 208 and 232). -/
def asDict : PyVal → List (String × PyVal)
  | .obj kvs => kvs
  | _ => []

/-- The fixed diagnostics endpoint (src/service.py line 258). -/
def error_log_path : String := "/jderest/orchestrator/ALFA_ORC_RetriveErrorLog"

/-- The row passed to `_db_insert_integration_log` by `create_fatture`
(src/service.py lines 211-225 and 236-250); both call sites differ only
in the `message` argument.  Line 145 stores `jde_log_id or "0"`. -/
def insertLogRow (p : InvoiceResponse) (message : PyVal)
    (fields : List (String × PyVal)) : IntegrationLogRow :=
  { object_id := PyVal.int p.CustomId
    object_type := p.DocumentType
    message := message
    jde_status := dictGet fields "jde_status"
    jde_start_timestamp := dictGet fields "jde_start_timestamp"
    jde_end_timestamp := dictGet fields "jde_end_timestamp"
    status := dictGet fields "status"
    batchno := dictGet fields "batchno"
    jde_server_execution_seconds := dictGet fields "jde_server_execution_seconds"
    jde_log_id := pyOr (dictGet fields "jde_log_id") (PyVal.str "0")
    integration_type := "INV"
    code := PyVal.str p.DocumentNumber
    company := p.DocumentCompany }

/-- Workflow `create_fatture` (src/service.py lines 185-293).  `call1` is the
outcome of the `http_json` submission (line 202), `diag` the outcome of
the diagnostics `http_json` call (line 261, consumed only on the
logical-error path).  The top-level `except Exception` (lines 291-293)
turns any raise into `ServiceResponse(success="0", message=str(e))`;
`.get` on a non-dict body raises `AttributeError` into that handler. -/
def create_fatture (p : InvoiceResponse)
    (call1 : Except String (Nat × PyVal))
    (diag : Except String (Nat × PyVal)) : WorkflowRun :=
  match call1 with
  | .error e => ⟨[], ⟨"0", some e⟩⟩
  | .ok (status, jde_resp) =>
    if 400 ≤ status then
      -- lines 203-228: HTTP rejection
      let fields := extract_jde_fields (asDict jde_resp)
      let default_msg := "JDE returned HTTP " ++ toString status ++ " on invoice insert."
      let row := insertLogRow p (pyOr (dictGet fields "messagea") (PyVal.str default_msg)) fields
      ⟨[Effect.insertLog row],
       ⟨"0", some (default_msg ++ "\n"
          ++ pyStr (pyOr (dictGet fields "message") (PyVal.str default_msg)))⟩⟩
    else
      -- lines 230-252: log the response
      let fields := extract_jde_fields (asDict jde_resp)
      let default_msg := pyOr (dictGet fields "message")
        (PyVal.str ("Invoice no. " ++ p.DocumentNumber ++ " " ++ p.DocumentType ++ " "
          ++ p.DocumentCompany ++ " successfully inserted"))
      let row := insertLogRow p default_msg fields
      match jde_resp with
      | .obj kvs =>
        -- line 256: str(jde_resp.get("status", "")).upper() == "ERROR"
        if strUpper (pyStr (dictGetD kvs "status" (PyVal.str ""))) == "ERROR" then
          let jde_log_id := dictGet fields "jde_log_id"
          let err_payload : List (String × PyVal) :=
            if jde_log_id ≠ PyVal.none then [("jdeLogId", jde_log_id)] else []
          let error_text : PyVal :=
            match diag with
            | .ok (_, .obj errkvs) =>
                pyOr (dictGet errkvs "ErrorLog") (PyVal.str (jsonDumps (PyVal.obj errkvs)))
            | .ok (_, other) =>
                PyVal.str ("Failed to retrieve JDE error log: " ++ attrGetError other)
            | .error e => PyVal.str ("Failed to retrieve JDE error log: " ++ e)
          let updates : List Effect :=
            if jde_log_id ≠ PyVal.none then [Effect.updateLog (pyStr jde_log_id) error_text]
            else []
          let subject := "JDE error for invoice id " ++ toString p.CustomId ++ " type "
            ++ p.DocumentType ++ " logId " ++ pyStr jde_log_id
          ⟨Effect.insertLog row :: Effect.httpCall error_log_path err_payload ::
             (updates ++ [Effect.sendMail subject]),
           ⟨"0", some "JDE returned ERROR. See logs/email for details"⟩⟩
        else
          ⟨[Effect.insertLog row], ⟨"1", some "OK"⟩⟩
      | other =>
        -- line 256 raises AttributeError on a non-dict body → lines 291-293
        ⟨[Effect.insertLog row], ⟨"0", some (attrGetError other)⟩⟩

/-- Workflow `create_anagrafiche` (src/service.py lines 170-183).  There is no
integration-log write anywhere in its body; its effect trace is empty.
The top-level `except` (lines 181-183) converts a raise into
`ServiceResponse(success="0", message=str(e))`. -/
def create_anagrafiche (_p : AnagrafichePayload)
    (call : Except String (Nat × PyVal)) : WorkflowRun :=
  match call with
  | .error e => ⟨[], ⟨"0", some e⟩⟩
  | .ok (status, _jde) =>
    if 400 ≤ status then
      ⟨[], ⟨"0", some ("JDE returned status " ++ toString status)⟩⟩
    else
      ⟨[], ⟨"1", some "OK"⟩⟩

/-- Concrete invoice used by closed theorems. -/
def pInv0 : InvoiceResponse :=
  { CustomId := 7, DocumentType := "RI", DocumentNumber := "123", DocumentCompany := "00001",
    Customer := "C", Company := "ACME", InvoiceDate := "2024-01-01",
    RegistrationDate := "2024-01-02", CurrencyCode := "EUR", ExchangeRate := 1,
    PymtTerms := "N30" }

/-- Concrete party record used by closed theorems. -/
def pAnag0 : AnagrafichePayload :=
  { codice := "A1", tipo := "C", tipoSoggetto := "P", anagrafica := "Rossi",
    zucchettiNumber := "Z9" }

/-! ## Helper lemmas -/

/-- A key that is in the dict makes `d.get(k, default)` independent of the
default. -/
theorem dictGetD_eq_of_mem {kvs : List (String × PyVal)} {k : String}
    (h : dictMem kvs k = true) (d e : PyVal) :
    dictGetD kvs k d = dictGetD kvs k e := by
  unfold dictGetD
  cases hf : kvs.find? (fun p => p.1 == k) with
  | some p => rfl
  | none =>
    exfalso
    rw [List.find?_eq_none] at hf
    unfold dictMem at h
    rw [List.any_eq_true] at h
    obtain ⟨x, hx, hpx⟩ := h
    exact absurd hpx (by simpa using hf x hx)

/-- Helper `first(*keys)` returns `None` when no key is present. -/
theorem firstKey_eq_none (r : List (String × PyVal)) :
    ∀ ks : List String, (∀ k ∈ ks, dictMem r k = false) → firstKey r ks = PyVal.none := by
  intro ks
  induction ks with
  | nil => intro _; rfl
  | cons k ks ih =>
    intro h
    have hk : dictMem r k = false := h k (List.mem_cons_self k ks)
    simp only [firstKey, hk, Bool.false_eq_true, if_false]
    exact ih (fun k' hk' => h k' (List.mem_cons_of_mem k hk'))

/-- When every attempt fails at network level, the loop body runs
`remaining + 1` more times: the last attempt issued is
`attempt + remaining` and the last error is re-raised. -/
theorem http_json_go_all_netfail (e : String) (P : List Nat → Option PyVal)
    (D : List Nat → String) (J : Nat → ℚ) :
    ∀ (remaining attempt : Nat) (acc : List ℚ),
      (http_json_go (fun _ => AttemptOut.netFail e) P D J attempt remaining acc).attemptsIssued =
        attempt + remaining ∧
      (http_json_go (fun _ => AttemptOut.netFail e) P D J attempt remaining acc).result =
        Except.error e := by
  intro remaining
  induction remaining with
  | zero => intro a acc; exact ⟨rfl, rfl⟩
  | succ r ih =>
    intro a acc
    rw [http_json_go]
    have := ih (a + 1) ((HTTP_BACKOFF_BASE * 2 ^ (a - 1) + J a) :: acc)
    exact ⟨by rw [this.1]; omega, this.2⟩

/-- The final attempt index of a run started at `attempt` is at least
`attempt`, and the recorded sleeps are exactly the jittered exponential
delays computed after the failed attempts `attempt, attempt+1, ...`. -/
theorem http_json_go_sleeps (oracle : Nat → AttemptOut) (P : List Nat → Option PyVal)
    (D : List Nat → String) (J : Nat → ℚ) :
    ∀ (remaining attempt : Nat) (acc : List ℚ),
      attempt ≤ (http_json_go oracle P D J attempt remaining acc).attemptsIssued ∧
      (http_json_go oracle P D J attempt remaining acc).sleeps =
        acc.reverse ++
          (List.range ((http_json_go oracle P D J attempt remaining acc).attemptsIssued - attempt)).map
            (fun j => HTTP_BACKOFF_BASE * 2 ^ (attempt + j - 1) + J (attempt + j)) := by
  intro remaining
  induction remaining with
  | zero =>
    intro a acc
    rw [http_json_go]
    cases oracle a with
    | reply status data => simp
    | netFail e => simp
  | succ r ih =>
    intro a acc
    rw [http_json_go]
    cases oracle a with
    | reply status data => simp
    | netFail e =>
      simp only
      obtain ⟨hle, hsleeps⟩ := ih (a + 1) ((HTTP_BACKOFF_BASE * 2 ^ (a - 1) + J a) :: acc)
      refine ⟨by omega, ?_⟩
      rw [hsleeps, List.reverse_cons]
      have hsub : (http_json_go oracle P D J (a + 1) r
            ((HTTP_BACKOFF_BASE * 2 ^ (a - 1) + J a) :: acc)).attemptsIssued - a =
          ((http_json_go oracle P D J (a + 1) r
            ((HTTP_BACKOFF_BASE * 2 ^ (a - 1) + J a) :: acc)).attemptsIssued - (a + 1)) + 1 := by
        omega
      rw [hsub, List.range_succ_eq_map, List.map_cons, List.map_map]
      have hmap : List.map ((fun j => HTTP_BACKOFF_BASE * 2 ^ (a + j - 1) + J (a + j)) ∘ Nat.succ)
            (List.range ((http_json_go oracle P D J (a + 1) r
              ((HTTP_BACKOFF_BASE * 2 ^ (a - 1) + J a) :: acc)).attemptsIssued - (a + 1))) =
          List.map (fun j => HTTP_BACKOFF_BASE * 2 ^ (a + 1 + j - 1) + J (a + 1 + j))
            (List.range ((http_json_go oracle P D J (a + 1) r
              ((HTTP_BACKOFF_BASE * 2 ^ (a - 1) + J a) :: acc)).attemptsIssued - (a + 1))) := by
        refine List.map_congr_left ?_
        intro j _
        simp only [Function.comp_apply]
        have h1 : a + Nat.succ j - 1 = a + 1 + j - 1 := by omega
        have h2 : a + Nat.succ j = a + 1 + j := by omega
        rw [h1, h2]
      rw [hmap]
      simp

/-- Run of `http_json` from its entry point: sleeps are the delays
`base * 2^j + jitter` for `j = 0, 1, ...` (the delay before attempt
`n = j + 2`). -/
theorem http_json_sleeps (retries : Nat) (oracle : Nat → AttemptOut)
    (P : List Nat → Option PyVal) (D : List Nat → String) (J : Nat → ℚ) :
    (http_json retries oracle P D J).sleeps =
      (List.range ((http_json retries oracle P D J).attemptsIssued - 1)).map
        (fun j => HTTP_BACKOFF_BASE * 2 ^ j + J (j + 1)) := by
  have h := (http_json_go_sleeps oracle P D J (1 + retries) 1 []).2
  rw [http_json]
  rw [h]
  simp only [List.reverse_nil, List.nil_append]
  refine List.map_congr_left ?_
  intro j _
  have h1 : 1 + j - 1 = j := by omega
  have h2 : 1 + j = j + 1 := by omega
  rw [h1, h2]

/-- Element `i` of the sleeps list is the delay `base * 2^i + J (i+1)`. -/
theorem http_json_sleeps_get (retries : Nat) (oracle : Nat → AttemptOut)
    (P : List Nat → Option PyVal) (D : List Nat → String) (J : Nat → ℚ)
    (i : Nat) (h : i < (http_json retries oracle P D J).sleeps.length) :
    (http_json retries oracle P D J).sleeps.get ⟨i, h⟩ =
      HTTP_BACKOFF_BASE * 2 ^ i + J (i + 1) := by
  rw [List.get_of_eq (http_json_sleeps retries oracle P D J)]
  simp [List.get_eq_getElem]

/-- C2 (behaviour at the claim's scenario): when every attempt fails at
the network level, `http_json` issues exactly `2 + retries` connection
attempts — one more than the `1 + maxRetries` the claim states — and
surfaces the last error.  The guard `if attempt > (1 + retries)` only
fires after attempt `2 + retries` has already been issued and failed. -/
theorem http_json_attempts_all_netfail (retries : Nat) (e : String)
    (P : List Nat → Option PyVal) (D : List Nat → String) (J : Nat → ℚ) :
    (http_json retries (fun _ => AttemptOut.netFail e) P D J).attemptsIssued = 2 + retries ∧
    (http_json retries (fun _ => AttemptOut.netFail e) P D J).result = Except.error e := by
  have h := http_json_go_all_netfail e P D J (1 + retries) 1 []
  rw [http_json]
  exact ⟨by rw [h.1]; omega, h.2⟩

/-- C8: with jitter in `[0, 0.2]`, the delay slept before attempt `n`
(list element `n - 2`) lies in `[base * 2^(n-2), base * 2^(n-2) + 0.2]`,
and the delays within one call are non-decreasing (`base` is the source
default `0.3`). -/
theorem backoff_delays_bounded_monotone (retries : Nat) (oracle : Nat → AttemptOut)
    (P : List Nat → Option PyVal) (D : List Nat → String) (J : Nat → ℚ)
    (hJ : ∀ a, 0 ≤ J a ∧ J a ≤ 1 / 5) :
    (∀ n, 2 ≤ n → ∀ h : n - 2 < (http_json retries oracle P D J).sleeps.length,
      HTTP_BACKOFF_BASE * 2 ^ (n - 2) ≤ (http_json retries oracle P D J).sleeps.get ⟨n - 2, h⟩ ∧
      (http_json retries oracle P D J).sleeps.get ⟨n - 2, h⟩ ≤
        HTTP_BACKOFF_BASE * 2 ^ (n - 2) + 1 / 5) ∧
    (∀ i, ∀ h : i + 1 < (http_json retries oracle P D J).sleeps.length,
      (http_json retries oracle P D J).sleeps.get ⟨i, Nat.lt_of_succ_lt h⟩ ≤
        (http_json retries oracle P D J).sleeps.get ⟨i + 1, h⟩) := by
  constructor
  · intro n _ h
    rw [http_json_sleeps_get retries oracle P D J (n - 2) h]
    have := hJ (n - 2 + 1)
    constructor <;> linarith [this.1, this.2]
  · intro i h
    rw [http_json_sleeps_get retries oracle P D J i (Nat.lt_of_succ_lt h),
      http_json_sleeps_get retries oracle P D J (i + 1) h]
    have h1 : (1 : ℚ) ≤ 2 ^ i := by
      calc (1 : ℚ) = 1 ^ i := (one_pow i).symm
        _ ≤ 2 ^ i := pow_le_pow_left₀ (by norm_num) (by norm_num) i
    have h2 : HTTP_BACKOFF_BASE * 2 ^ (i + 1) = HTTP_BACKOFF_BASE * 2 ^ i * 2 := by
      rw [pow_succ]; ring
    have h3 : (1 : ℚ) / 5 ≤ HTTP_BACKOFF_BASE * 2 ^ i := by
      rw [HTTP_BACKOFF_BASE]; nlinarith
    have h4 := hJ (i + 1)
    have h5 := hJ (i + 2)
    rw [h2]
    linarith [h4.2, h5.1]

/-- Concrete stdlib/jitter oracles for closed instances. -/
def P0 : List Nat → Option PyVal := fun _ => Option.none

def D0 : List Nat → String := fun _ => ""

def J0 : Nat → ℚ := fun _ => 0

def allFailOracle : Nat → AttemptOut := fun _ => AttemptOut.netFail "timed out"

/-- Witness for the C8 theorem at `retries = 2`, all attempts failing,
zero jitter. -/
theorem backoff_delays_bounded_monotone_witness :
    (∀ a : Nat, 0 ≤ J0 a ∧ J0 a ≤ 1 / 5) ∧
    ((∀ n, 2 ≤ n → ∀ h : n - 2 < (http_json 2 allFailOracle P0 D0 J0).sleeps.length,
      HTTP_BACKOFF_BASE * 2 ^ (n - 2) ≤ (http_json 2 allFailOracle P0 D0 J0).sleeps.get ⟨n - 2, h⟩ ∧
      (http_json 2 allFailOracle P0 D0 J0).sleeps.get ⟨n - 2, h⟩ ≤
        HTTP_BACKOFF_BASE * 2 ^ (n - 2) + 1 / 5) ∧
    (∀ i, ∀ h : i + 1 < (http_json 2 allFailOracle P0 D0 J0).sleeps.length,
      (http_json 2 allFailOracle P0 D0 J0).sleeps.get ⟨i, Nat.lt_of_succ_lt h⟩ ≤
        (http_json 2 allFailOracle P0 D0 J0).sleeps.get ⟨i + 1, h⟩)) :=
  have hJ : ∀ a : Nat, 0 ≤ J0 a ∧ J0 a ≤ 1 / 5 := fun _ =>
    ⟨le_refl 0, show (0 : ℚ) ≤ 1 / 5 by norm_num⟩
  ⟨hJ, backoff_delays_bounded_monotone 2 allFailOracle P0 D0 J0 hJ⟩

/-- The spec's fallback object for an unusable body ("a non-JSON or
empty body yields a fallback object carrying the first ~200 raw
bytes") — modelled from the spec, to compare with `parse_body`. -/
def fallbackObj (D : List Nat → String) (data : List Nat) : PyVal :=
  PyVal.obj [("raw", PyVal.str (D (data.take 200)))]

/-- C9 counterexample: an empty body does not produce the fallback
object — `json.loads("{}")` is substituted, so the reply body is the
parsed empty object `{}` (no `"raw"` key). -/
theorem empty_body_yields_empty_object_not_fallback :
    (http_json 2 (fun _ => AttemptOut.reply 500 []) P0 D0 J0).result =
      Except.ok (500, PyVal.obj []) ∧
    (http_json 2 (fun _ => AttemptOut.reply 500 []) P0 D0 J0).attemptsIssued = 1 ∧
    PyVal.obj [] ≠ fallbackObj D0 [] := by
  refine ⟨rfl, rfl, ?_⟩
  decide

/-- C9 amended: any reply returns immediately (one attempt, no sleeps)
whatever the HTTP status; a non-empty unparseable body yields the
fallback object with at most the first 200 raw bytes; an empty body
yields the parsed empty object `{}`; a parseable body is returned as
parsed. -/
theorem reply_returned_without_status_retry (retries : Nat) (oracle : Nat → AttemptOut)
    (P : List Nat → Option PyVal) (D : List Nat → String) (J : Nat → ℚ)
    (status : Nat) (data : List Nat)
    (h : oracle 1 = AttemptOut.reply status data) :
    (http_json retries oracle P D J).result = Except.ok (status, parse_body P D data) ∧
    (http_json retries oracle P D J).attemptsIssued = 1 ∧
    (http_json retries oracle P D J).sleeps = [] ∧
    (data = [] → parse_body P D data = PyVal.obj []) ∧
    (∀ v, data ≠ [] → P data = some v → parse_body P D data = v) ∧
    (data ≠ [] → P data = Option.none →
      parse_body P D data = fallbackObj D data ∧ (data.take 200).length ≤ 200) := by
  rw [http_json, http_json_go, h]
  refine ⟨rfl, rfl, rfl, ?_, ?_, ?_⟩
  · intro hd; subst hd; rfl
  · intro v hne hp
    have hE : data.isEmpty = false := by simpa [List.isEmpty_iff] using hne
    simp [parse_body, hE, hp]
  · intro hne hp
    have hE : data.isEmpty = false := by simpa [List.isEmpty_iff] using hne
    refine ⟨by simp [parse_body, hE, hp, fallbackObj], ?_⟩
    simp [List.length_take]

/-- A concrete oracle replying on the first attempt. -/
def reply0Oracle : Nat → AttemptOut := fun _ => AttemptOut.reply 503 [104, 105]

/-- Witness for the C9 amended theorem: a 503 reply whose body does not
parse as JSON, returned after exactly one attempt. -/
theorem reply_returned_without_status_retry_witness :
    reply0Oracle 1 = AttemptOut.reply 503 [104, 105] ∧
    ((http_json 4 reply0Oracle P0 D0 J0).result =
        Except.ok (503, parse_body P0 D0 [104, 105]) ∧
      (http_json 4 reply0Oracle P0 D0 J0).attemptsIssued = 1 ∧
      (http_json 4 reply0Oracle P0 D0 J0).sleeps = [] ∧
      ([104, 105] = ([] : List Nat) → parse_body P0 D0 [104, 105] = PyVal.obj []) ∧
      (∀ v, [104, 105] ≠ ([] : List Nat) → P0 [104, 105] = some v →
        parse_body P0 D0 [104, 105] = v) ∧
      ([104, 105] ≠ ([] : List Nat) → P0 [104, 105] = Option.none →
        parse_body P0 D0 [104, 105] = fallbackObj D0 [104, 105] ∧
        (([104, 105] : List Nat).take 200).length ≤ 200)) :=
  ⟨rfl, reply_returned_without_status_retry 4 reply0Oracle P0 D0 J0 503 [104, 105] rfl⟩

/-- The documented canonical-field → alias table (spec §4.3); the first
components are the keys the code stores the canonical fields under (the
spec's `start_timestamp`, `end_timestamp`, `batch_no`,
`server_execution_seconds`, `log_id` are stored as
`jde_start_timestamp`, `jde_end_timestamp`, `batchno`,
`jde_server_execution_seconds`, `jde_log_id`). -/
def aliasTable : List (String × List String) :=
  [("message", ["message", "jdeSimpleMessage", "userDefinedErrorText"]),
   ("jde_status", ["jde__status", "jdeStatus", "jde_status"]),
   ("jde_start_timestamp", ["jde__startTimestamp", "jdeStartTimestamp"]),
   ("jde_end_timestamp", ["jde__endTimestamp", "jdeEndTimestamp"]),
   ("status", ["status"]),
   ("batchno", ["BatchNo", "batchNo", "batchno"]),
   ("jde_server_execution_seconds", ["jde__serverExecutionSeconds", "jdeServerExecutionSeconds"]),
   ("jde_log_id", ["jdeLogId", "jde_log_id", "exceptionId"])]

/-- C6: for every raw response, each canonical field of the normalizer
is the value of the first present key in the documented alias order, and
is absent (`None`) when no alias is present. -/
theorem extract_jde_fields_alias_order (r : List (String × PyVal)) (f : String)
    (aliases : List String) (hf : (f, aliases) ∈ aliasTable) :
    dictGet (extract_jde_fields r) f = firstKey r aliases ∧
    ((∀ k ∈ aliases, dictMem r k = false) → dictGet (extract_jde_fields r) f = PyVal.none) := by
  simp only [aliasTable, List.mem_cons, List.not_mem_nil, or_false] at hf
  rcases hf with h | h | h | h | h | h | h | h <;>
    (injection h with h1 h2; subst h1; subst h2;
     exact ⟨rfl, fun habs => firstKey_eq_none r _ habs⟩)

/-- Witness for C6 at a response using the second alias of
`jde_status`. -/
theorem extract_jde_fields_alias_order_witness :
    ("jde_status", ["jde__status", "jdeStatus", "jde_status"]) ∈ aliasTable ∧
    (dictGet (extract_jde_fields [("jdeStatus", PyVal.str "E")]) "jde_status" =
        firstKey [("jdeStatus", PyVal.str "E")] ["jde__status", "jdeStatus", "jde_status"] ∧
      ((∀ k ∈ ["jde__status", "jdeStatus", "jde_status"],
          dictMem [("jdeStatus", PyVal.str "E")] k = false) →
        dictGet (extract_jde_fields [("jdeStatus", PyVal.str "E")]) "jde_status" = PyVal.none)) :=
  ⟨by decide, extract_jde_fields_alias_order [("jdeStatus", PyVal.str "E")] "jde_status"
    ["jde__status", "jdeStatus", "jde_status"] (by decide)⟩

/-- If the normalizer produced `status = v` (a non-`None` value), the
`status` key is in the raw body and `jde_resp.get("status", "")`
returns that same value. -/
theorem raw_status_of_extract (kvs : List (String × PyVal)) (s : String)
    (hs : dictGet (extract_jde_fields kvs) "status" = PyVal.str s) :
    dictMem kvs "status" = true ∧ dictGetD kvs "status" (PyVal.str "") = PyVal.str s := by
  have h0 : dictGet (extract_jde_fields kvs) "status" = firstKey kvs ["status"] := rfl
  rw [h0] at hs
  by_cases hm : dictMem kvs "status"
  · rw [firstKey, if_pos hm] at hs
    refine ⟨hm, ?_⟩
    rw [dictGetD_eq_of_mem hm (PyVal.str "") PyVal.none]
    exact hs
  · rw [firstKey, if_neg hm] at hs
    exact absurd hs (by simp [firstKey])

/-- C1 counterexample: a party-record submission that reaches an HTTP
outcome (a 200 reply) appends no integration-log entry at all. -/
theorem anagrafiche_appends_no_log_row :
    (create_anagrafiche pAnag0 (Except.ok (200, PyVal.obj []))).response =
      ⟨"1", some "OK"⟩ ∧
    (create_anagrafiche pAnag0 (Except.ok (200, PyVal.obj []))).effects.filter
        Effect.isInsertLog = [] ∧
    ¬ ((create_anagrafiche pAnag0 (Except.ok (200, PyVal.obj []))).effects.filter
        Effect.isInsertLog).length = 1 := by decide

/-- C1 amended: every invoice-workflow run that reaches an HTTP outcome
appends exactly one integration-log row; the party-record workflow
issues no integration-log effect at all. -/
theorem invoice_one_log_row_party_none :
    (∀ (p : InvoiceResponse) (status : Nat) (body : PyVal)
        (diag : Except String (Nat × PyVal)),
      ((create_fatture p (Except.ok (status, body)) diag).effects.filter
          Effect.isInsertLog).length = 1) ∧
    (∀ (q : AnagrafichePayload) (call : Except String (Nat × PyVal)),
      (create_anagrafiche q call).effects = []) := by
  constructor
  · intro p status body diag
    by_cases h4 : 400 ≤ status
    · simp [create_fatture, h4, Effect.isInsertLog]
    · cases body with
      | obj kvs =>
        simp only [create_fatture]
        rw [if_neg h4]
        split
        · split <;>
            simp [Effect.isInsertLog, Effect.isHttpCall, Effect.isUpdateLog, Effect.isSendMail]
        · simp [Effect.isInsertLog]
      | none => simp [create_fatture, h4, Effect.isInsertLog]
      | str s => simp [create_fatture, h4, Effect.isInsertLog]
      | int n => simp [create_fatture, h4, Effect.isInsertLog]
      | bool b => simp [create_fatture, h4, Effect.isInsertLog]
      | arr xs => simp [create_fatture, h4, Effect.isInsertLog]
  · intro q call
    cases call with
    | error e => rfl
    | ok sp =>
      obtain ⟨status, j⟩ := sp
      by_cases h4 : 400 ≤ status <;> simp [create_anagrafiche, h4]

/-- C3 (behaviour at the claim's scenario): an HTTP 500 reply whose body
carries `{"message": "down"}` gets a log row whose message is the
synthetic text, not the normalized body message — the insert reads the
never-present key `"messagea"` — even though the normalizer did extract
`"down"` and the returned `ServiceResponse` message does use it. -/
theorem http_error_row_message_is_synthetic :
    ((create_fatture pInv0
        (Except.ok (500, PyVal.obj [("message", PyVal.str "down")]))
        (Except.error "x")).effects.map
      (fun e => match e with
        | Effect.insertLog row => row.message
        | _ => PyVal.none)) = [PyVal.str "JDE returned HTTP 500 on invoice insert."] ∧
    dictGet (extract_jde_fields [("message", PyVal.str "down")]) "message" =
      PyVal.str "down" ∧
    PyVal.str "JDE returned HTTP 500 on invoice insert." ≠ PyVal.str "down" ∧
    (create_fatture pInv0 (Except.ok (500, PyVal.obj [("message", PyVal.str "down")]))
        (Except.error "x")).response =
      ⟨"0", some "JDE returned HTTP 500 on invoice insert.\ndown"⟩ := by decide

/-- C4 counterexample: with HTTP 200 and body `{"status": "error"}` the
normalized status is `"error"`, not the literal `"ERROR"`, yet the
workflow takes the logical-error path (diagnostics call issued, result
is the error response), not Accepted. -/
theorem lowercase_error_status_not_accepted :
    dictGet (extract_jde_fields [("status", PyVal.str "error")]) "status" =
      PyVal.str "error" ∧
    PyVal.str "error" ≠ PyVal.str "ERROR" ∧
    (create_fatture pInv0 (Except.ok (200, PyVal.obj [("status", PyVal.str "error")]))
        (Except.error "net")).response =
      ⟨"0", some "JDE returned ERROR. See logs/email for details"⟩ ∧
    (create_fatture pInv0 (Except.ok (200, PyVal.obj [("status", PyVal.str "error")]))
        (Except.error "net")).response ≠ ⟨"1", some "OK"⟩ ∧
    (create_fatture pInv0 (Except.ok (200, PyVal.obj [("status", PyVal.str "error")]))
        (Except.error "net")).effects.filter Effect.isHttpCall ≠ [] := by decide

/-- C4 amended: for a reply with HTTP status < 400 whose raw `status`,
rendered with `str(...)` and upper-cased, is not `"ERROR"` — the check
the code performs — the workflow returns `{success:"1", message:"OK"}`
with one log row, no diagnostics call and no notification. -/
theorem accepted_when_upper_status_not_error (p : InvoiceResponse) (status : Nat)
    (kvs : List (String × PyVal)) (diag : Except String (Nat × PyVal))
    (h4 : status < 400)
    (hs : strUpper (pyStr (dictGetD kvs "status" (PyVal.str ""))) ≠ "ERROR") :
    (create_fatture p (Except.ok (status, PyVal.obj kvs)) diag).response =
      ⟨"1", some "OK"⟩ ∧
    (create_fatture p (Except.ok (status, PyVal.obj kvs)) diag).effects.filter
        Effect.isHttpCall = [] ∧
    (create_fatture p (Except.ok (status, PyVal.obj kvs)) diag).effects.filter
        Effect.isSendMail = [] ∧
    ((create_fatture p (Except.ok (status, PyVal.obj kvs)) diag).effects.filter
        Effect.isInsertLog).length = 1 := by
  have h4' : ¬ 400 ≤ status := by omega
  have hcond : (strUpper (pyStr (dictGetD kvs "status" (PyVal.str ""))) == "ERROR") = false := by
    rw [beq_eq_false_iff_ne]
    exact hs
  simp [create_fatture, h4', hcond, Effect.isHttpCall, Effect.isSendMail, Effect.isInsertLog]

/-- Witness for C4 amended at a 200 reply with `status = "OK"`. -/
theorem accepted_when_upper_status_not_error_witness :
    (200 < 400) ∧
    (strUpper (pyStr (dictGetD [("status", PyVal.str "OK")] "status" (PyVal.str ""))) ≠
      "ERROR") ∧
    ((create_fatture pInv0 (Except.ok (200, PyVal.obj [("status", PyVal.str "OK")]))
        (Except.error "x")).response = ⟨"1", some "OK"⟩ ∧
      (create_fatture pInv0 (Except.ok (200, PyVal.obj [("status", PyVal.str "OK")]))
        (Except.error "x")).effects.filter Effect.isHttpCall = [] ∧
      (create_fatture pInv0 (Except.ok (200, PyVal.obj [("status", PyVal.str "OK")]))
        (Except.error "x")).effects.filter Effect.isSendMail = [] ∧
      ((create_fatture pInv0 (Except.ok (200, PyVal.obj [("status", PyVal.str "OK")]))
        (Except.error "x")).effects.filter Effect.isInsertLog).length = 1) :=
  ⟨by decide, by decide,
    accepted_when_upper_status_not_error pInv0 200 [("status", PyVal.str "OK")]
      (Except.error "x") (by decide) (by decide)⟩

/-- C7: both workflows always return a `ServiceResponse` whose `success`
is `"0"` or `"1"` (they are total functions of the call outcomes), and a
raised exception from the submission call is converted at the top level
into `{success:"0", message:str(e)}`. -/
theorem workflows_always_return_service_result :
    (∀ (p : InvoiceResponse) (call1 diag : Except String (Nat × PyVal)),
      (create_fatture p call1 diag).response.success = "0" ∨
      (create_fatture p call1 diag).response.success = "1") ∧
    (∀ (q : AnagrafichePayload) (call : Except String (Nat × PyVal)),
      (create_anagrafiche q call).response.success = "0" ∨
      (create_anagrafiche q call).response.success = "1") ∧
    (∀ (p : InvoiceResponse) (diag : Except String (Nat × PyVal)) (e : String),
      (create_fatture p (Except.error e) diag).response = ⟨"0", some e⟩) ∧
    (∀ (q : AnagrafichePayload) (e : String),
      (create_anagrafiche q (Except.error e)).response = ⟨"0", some e⟩) := by
  refine ⟨?_, ?_, ?_, ?_⟩
  · intro p call1 diag
    cases call1 with
    | error e => exact Or.inl rfl
    | ok sp =>
      obtain ⟨status, body⟩ := sp
      by_cases h4 : 400 ≤ status
      · exact Or.inl (by simp [create_fatture, h4])
      · cases body with
        | obj kvs =>
          simp only [create_fatture]
          rw [if_neg h4]
          split
          · exact Or.inl rfl
          · exact Or.inr rfl
        | none => exact Or.inl (by simp [create_fatture, h4])
        | str s => exact Or.inl (by simp [create_fatture, h4])
        | int n => exact Or.inl (by simp [create_fatture, h4])
        | bool b => exact Or.inl (by simp [create_fatture, h4])
        | arr xs => exact Or.inl (by simp [create_fatture, h4])
  · intro q call
    cases call with
    | error e => exact Or.inl rfl
    | ok sp =>
      obtain ⟨status, j⟩ := sp
      by_cases h4 : 400 ≤ status
      · exact Or.inl (by simp [create_anagrafiche, h4])
      · exact Or.inr (by simp [create_anagrafiche, h4])
  · intro p diag e
    rfl
  · intro q e
    rfl

/-- C5: on a reply with HTTP < 400 whose normalized `status` is
`"ERROR"`, the run appends exactly one log row (before the diagnostics
call), issues exactly one diagnostics call to the fixed error-log
endpoint with payload `{jdeLogId: log_id}` (empty when the log id is
absent), issues at most one amendment (none when the log id is absent),
attempts exactly one notification, and returns the fixed error result —
whatever the diagnostics outcome `diag` was. -/
theorem logical_error_path_effects (p : InvoiceResponse) (status : Nat)
    (kvs : List (String × PyVal)) (diag : Except String (Nat × PyVal))
    (h4 : status < 400)
    (hs : dictGet (extract_jde_fields kvs) "status" = PyVal.str "ERROR") :
    ((create_fatture p (Except.ok (status, PyVal.obj kvs)) diag).effects.filter
        Effect.isInsertLog).length = 1 ∧
    (create_fatture p (Except.ok (status, PyVal.obj kvs)) diag).effects.filter
        Effect.isHttpCall =
      [Effect.httpCall error_log_path
        (if dictGet (extract_jde_fields kvs) "jde_log_id" = PyVal.none then []
         else [("jdeLogId", dictGet (extract_jde_fields kvs) "jde_log_id")])] ∧
    ((create_fatture p (Except.ok (status, PyVal.obj kvs)) diag).effects.filter
        Effect.isUpdateLog).length =
      (if dictGet (extract_jde_fields kvs) "jde_log_id" = PyVal.none then 0 else 1) ∧
    ((create_fatture p (Except.ok (status, PyVal.obj kvs)) diag).effects.filter
        Effect.isSendMail).length = 1 ∧
    (create_fatture p (Except.ok (status, PyVal.obj kvs)) diag).response =
      ⟨"0", some "JDE returned ERROR. See logs/email for details"⟩ ∧
    (∃ row rest,
      (create_fatture p (Except.ok (status, PyVal.obj kvs)) diag).effects =
        Effect.insertLog row :: Effect.httpCall error_log_path
          (if dictGet (extract_jde_fields kvs) "jde_log_id" = PyVal.none then []
           else [("jdeLogId", dictGet (extract_jde_fields kvs) "jde_log_id")]) :: rest) := by
  have h4' : ¬ 400 ≤ status := by omega
  obtain ⟨hm, heqraw⟩ := raw_status_of_extract kvs "ERROR" hs
  have hcond : (strUpper (pyStr (dictGetD kvs "status" (PyVal.str ""))) == "ERROR") = true := by
    rw [heqraw]; decide
  by_cases hl : dictGet (extract_jde_fields kvs) "jde_log_id" = PyVal.none
  · refine ⟨?_, ?_, ?_, ?_, ?_, ?_⟩ <;>
      · simp only [create_fatture, asDict]
        rw [if_neg h4']
        simp [hcond, hl, Effect.isInsertLog, Effect.isHttpCall, Effect.isUpdateLog,
          Effect.isSendMail]
  · refine ⟨?_, ?_, ?_, ?_, ?_, ?_⟩ <;>
      · simp only [create_fatture, asDict]
        rw [if_neg h4']
        simp [hcond, hl, Effect.isInsertLog, Effect.isHttpCall, Effect.isUpdateLog,
          Effect.isSendMail]

/-- Witness for C5: 200 reply, `status="ERROR"`, `jdeLogId="42"`,
diagnostics call itself failing. -/
theorem logical_error_path_effects_witness :
    (200 < 400) ∧
    (dictGet (extract_jde_fields [("status", PyVal.str "ERROR"), ("jdeLogId", PyVal.str "42")])
        "status" = PyVal.str "ERROR") ∧
    (((create_fatture pInv0
        (Except.ok (200, PyVal.obj [("status", PyVal.str "ERROR"), ("jdeLogId", PyVal.str "42")]))
        (Except.error "boom")).effects.filter Effect.isInsertLog).length = 1 ∧
      (create_fatture pInv0
        (Except.ok (200, PyVal.obj [("status", PyVal.str "ERROR"), ("jdeLogId", PyVal.str "42")]))
        (Except.error "boom")).effects.filter Effect.isHttpCall =
        [Effect.httpCall error_log_path
          (if dictGet (extract_jde_fields
                [("status", PyVal.str "ERROR"), ("jdeLogId", PyVal.str "42")]) "jde_log_id" =
              PyVal.none then []
           else [("jdeLogId", dictGet (extract_jde_fields
                [("status", PyVal.str "ERROR"), ("jdeLogId", PyVal.str "42")]) "jde_log_id")])] ∧
      ((create_fatture pInv0
        (Except.ok (200, PyVal.obj [("status", PyVal.str "ERROR"), ("jdeLogId", PyVal.str "42")]))
        (Except.error "boom")).effects.filter Effect.isUpdateLog).length =
        (if dictGet (extract_jde_fields
              [("status", PyVal.str "ERROR"), ("jdeLogId", PyVal.str "42")]) "jde_log_id" =
            PyVal.none then 0 else 1) ∧
      ((create_fatture pInv0
        (Except.ok (200, PyVal.obj [("status", PyVal.str "ERROR"), ("jdeLogId", PyVal.str "42")]))
        (Except.error "boom")).effects.filter Effect.isSendMail).length = 1 ∧
      (create_fatture pInv0
        (Except.ok (200, PyVal.obj [("status", PyVal.str "ERROR"), ("jdeLogId", PyVal.str "42")]))
        (Except.error "boom")).response =
        ⟨"0", some "JDE returned ERROR. See logs/email for details"⟩ ∧
      (∃ row rest,
        (create_fatture pInv0
          (Except.ok (200, PyVal.obj [("status", PyVal.str "ERROR"), ("jdeLogId", PyVal.str "42")]))
          (Except.error "boom")).effects =
          Effect.insertLog row :: Effect.httpCall error_log_path
            (if dictGet (extract_jde_fields
                  [("status", PyVal.str "ERROR"), ("jdeLogId", PyVal.str "42")]) "jde_log_id" =
                PyVal.none then []
             else [("jdeLogId", dictGet (extract_jde_fields
                  [("status", PyVal.str "ERROR"), ("jdeLogId", PyVal.str "42")]) "jde_log_id")]) ::
            rest)) :=
  ⟨by decide, by decide,
    logical_error_path_effects pInv0 200
      [("status", PyVal.str "ERROR"), ("jdeLogId", PyVal.str "42")]
      (Except.error "boom") (by decide) (by decide)⟩

/-- C10: on the logical-error path, when the reply carries a log-id
alias with the empty-string value, the appended row stores the sentinel
`"0"` (the insert's `or "0"`), yet the diagnostics payload carries
`{jdeLogId: ""}` and an amendment is still issued keyed by `""` (only a
missing alias, `None`, skips it) — so the amendment key differs from the
`log_id` stored in the appended row. -/
theorem empty_log_id_sentinel_vs_amendment (p : InvoiceResponse) (status : Nat)
    (kvs : List (String × PyVal)) (diag : Except String (Nat × PyVal))
    (h4 : status < 400)
    (hs : dictGet (extract_jde_fields kvs) "status" = PyVal.str "ERROR")
    (hl : dictGet (extract_jde_fields kvs) "jde_log_id" = PyVal.str "") :
    (create_fatture p (Except.ok (status, PyVal.obj kvs)) diag).effects.filter
        Effect.isHttpCall =
      [Effect.httpCall error_log_path [("jdeLogId", PyVal.str "")]] ∧
    (∃ msg, (create_fatture p (Except.ok (status, PyVal.obj kvs)) diag).effects.filter
        Effect.isUpdateLog = [Effect.updateLog "" msg]) ∧
    (∃ row rest,
      (create_fatture p (Except.ok (status, PyVal.obj kvs)) diag).effects =
        Effect.insertLog row :: rest ∧
      row.jde_log_id = PyVal.str "0") ∧
    PyVal.str "" ≠ PyVal.str "0" := by
  have h4' : ¬ 400 ≤ status := by omega
  obtain ⟨hm, heqraw⟩ := raw_status_of_extract kvs "ERROR" hs
  have hcond : (strUpper (pyStr (dictGetD kvs "status" (PyVal.str ""))) == "ERROR") = true := by
    rw [heqraw]; decide
  have hlne : ¬ (dictGet (extract_jde_fields kvs) "jde_log_id" = PyVal.none) := by
    rw [hl]; decide
  refine ⟨?_, ?_, ?_, by decide⟩
  · simp only [create_fatture, asDict]
    rw [if_neg h4']
    simp [hcond, hl, hlne, Effect.isHttpCall]
  · simp only [create_fatture, asDict]
    rw [if_neg h4']
    simp [hcond, hl, hlne, Effect.isUpdateLog]
    rfl
  · simp only [create_fatture, asDict]
    rw [if_neg h4']
    simp only [hcond, if_true]
    simp [hcond, hl, hlne, insertLogRow, pyOr, truthy]

/-- Witness for C10: 200 reply with `status="ERROR"`, `jdeLogId=""`,
diagnostics succeeding with an `ErrorLog` text. -/
theorem empty_log_id_sentinel_vs_amendment_witness :
    (200 < 400) ∧
    (dictGet (extract_jde_fields [("status", PyVal.str "ERROR"), ("jdeLogId", PyVal.str "")])
        "status" = PyVal.str "ERROR") ∧
    (dictGet (extract_jde_fields [("status", PyVal.str "ERROR"), ("jdeLogId", PyVal.str "")])
        "jde_log_id" = PyVal.str "") ∧
    ((create_fatture pInv0
        (Except.ok (200, PyVal.obj [("status", PyVal.str "ERROR"), ("jdeLogId", PyVal.str "")]))
        (Except.ok (200, PyVal.obj [("ErrorLog", PyVal.str "detail")]))).effects.filter
          Effect.isHttpCall =
        [Effect.httpCall error_log_path [("jdeLogId", PyVal.str "")]] ∧
      (∃ msg, (create_fatture pInv0
          (Except.ok (200, PyVal.obj [("status", PyVal.str "ERROR"), ("jdeLogId", PyVal.str "")]))
          (Except.ok (200, PyVal.obj [("ErrorLog", PyVal.str "detail")]))).effects.filter
            Effect.isUpdateLog = [Effect.updateLog "" msg]) ∧
      (∃ row rest, (create_fatture pInv0
          (Except.ok (200, PyVal.obj [("status", PyVal.str "ERROR"), ("jdeLogId", PyVal.str "")]))
          (Except.ok (200, PyVal.obj [("ErrorLog", PyVal.str "detail")]))).effects =
          Effect.insertLog row :: rest ∧
        row.jde_log_id = PyVal.str "0") ∧
      PyVal.str "" ≠ PyVal.str "0") :=
  ⟨by decide, by decide, by decide,
    empty_log_id_sentinel_vs_amendment pInv0 200
      [("status", PyVal.str "ERROR"), ("jdeLogId", PyVal.str "")]
      (Except.ok (200, PyVal.obj [("ErrorLog", PyVal.str "detail")]))
      (by decide) (by decide) (by decide)⟩
